import Mathlib

/-!
Shallow embedding of the satellite-visibility core of the repository:
coordinate conversion stubs (`coordinateConverter.js`), the occlusion
checker (`occlusionChecker` module), the signal-strength model
(`signalStrengthCalculator` module) and the satellite position
propagation (`satelliteCalculator` module).

Conventions of the embedding:
* JavaScript numbers are modelled by `ℝ` (guard-relevant quantities such
  as timestamps in milliseconds are modelled by `ℚ` so that the control
  flow is decidable); the JavaScript value `-Infinity` returned by the
  signal-strength model is modelled by `⊥ : EReal`.
* A JavaScript function that can `throw` is modelled as returning
  `Except JsError α`; each distinct `throw new Error(...)` site is one
  constructor of `JsError`.
* Required object fields whose absence the source checks for are
  modelled as `Option` fields.
* `Math.sin`, `Math.cos`, `Math.sqrt`, `Math.log10`, `Math.atan2` are
  modelled by `Real.sin`, `Real.cos`, `Real.sqrt`, `Real.logb 10` and
  `Complex.arg` respectively; the JavaScript remainder operator `%`
  (truncated remainder) is modelled explicitly.
-/

/-- A plain `{x, y, z}` JavaScript object (ECEF coordinates or body
coordinates, meters). -/
structure Vec3 where
  x : ℝ
  y : ℝ
  z : ℝ

/-- A `{longitude, latitude, altitude}` JavaScript object
(degrees, degrees, meters). -/
structure Lla where
  longitude : ℝ
  latitude : ℝ
  altitude : ℝ

/-- An `{roll, pitch, yaw}` JavaScript object (degrees). -/
structure Attitude where
  roll : ℝ
  pitch : ℝ
  yaw : ℝ

/-- One constructor per distinct `throw new Error(...)` site of the
embedded modules. -/
inductive JsError where
  /-- `'缺少必要参数'` — a required parameter is missing. -/
  | missingParams : JsError
  /-- `` `找不到卫星 ${satelliteId} 的轨道数据` `` — no ephemeris entry
  for the requested satellite id. -/
  | satelliteNotFound (satelliteId : String) : JsError
  /-- `` `卫星 ${satelliteId} 缺少轨道参数` `` — the entry exists but has
  no orbital parameters. -/
  | missingOrbitalParams (satelliteId : String) : JsError
  /-- `'计算时间超出星历数据有效范围'` — the evaluation time falls
  outside the ephemeris validity window. -/
  | outOfValidityRange : JsError
deriving DecidableEq

/-! ### coordinateConverter.js -/

/-- Parameter object of `llaToEcef`; the source checks each field
against `undefined`. -/
structure LlaToEcefParams where
  longitude : Option ℝ
  latitude : Option ℝ
  altitude : Option ℝ

/-- Parameter object of `ecefToLla`. -/
structure EcefToLlaParams where
  x : Option ℝ
  y : Option ℝ
  z : Option ℝ

/-- `llaToEcef` of `coordinateConverter.js`.  After the parameter check
the source body is a stub: it ignores the input and returns the
hardcoded mock position `{x: -2178193.23, y: 4385320.32, z: 4077003.58}`
(its own comments mark the WGS84 algorithm as TODO). -/
def llaToEcef (params : LlaToEcefParams) : Except JsError Vec3 :=
  match params.longitude, params.latitude, params.altitude with
  | some _, some _, some _ => .ok ⟨-2178193.23, 4385320.32, 4077003.58⟩
  | _, _, _ => .error .missingParams

/-- `ecefToLla` of `coordinateConverter.js`.  After the parameter check
the source body is a stub returning the hardcoded mock
`{longitude: 116.3974, latitude: 39.9093, altitude: 50.0}`. -/
def ecefToLla (params : EcefToLlaParams) : Except JsError Lla :=
  match params.x, params.y, params.z with
  | some _, some _, some _ => .ok ⟨116.3974, 39.9093, 50.0⟩
  | _, _, _ => .error .missingParams

/-- Parameter object of `bodyToEcef`. -/
structure BodyToEcefParams where
  aircraftPositionLla : Option Lla
  aircraftAttitude : Option Attitude
  bodyCoord : Option Vec3

/-- Parameter object of `ecefToBody`. -/
structure EcefToBodyParams where
  aircraftPositionLla : Option Lla
  aircraftAttitude : Option Attitude
  ecefCoord : Option Vec3

/-- `bodyToEcef` of `coordinateConverter.js`.  After the parameter check
the source body is a stub returning the hardcoded mock position
`{x: -2178183.23, y: 4385320.32, z: 4077003.58}`. -/
def bodyToEcef (params : BodyToEcefParams) : Except JsError Vec3 :=
  match params.aircraftPositionLla, params.aircraftAttitude, params.bodyCoord with
  | some _, some _, some _ => .ok ⟨-2178183.23, 4385320.32, 4077003.58⟩
  | _, _, _ => .error .missingParams

/-- `ecefToBody` of `coordinateConverter.js`.  After the parameter check
the source body is a stub returning the hardcoded mock body coordinate
`{x: 10.0, y: 0.0, z: 0.0}`. -/
def ecefToBody (params : EcefToBodyParams) : Except JsError Vec3 :=
  match params.aircraftPositionLla, params.aircraftAttitude, params.ecefCoord with
  | some _, some _, some _ => .ok ⟨10.0, 0.0, 0.0⟩
  | _, _, _ => .error .missingParams

/-- Round trip `ecefToLla ∘ llaToEcef` on a geodetic position whose
fields are all present, feeding the ECEF result back field by field. -/
def llaRoundTrip (p : Lla) : Except JsError Lla :=
  (llaToEcef ⟨some p.longitude, some p.latitude, some p.altitude⟩).bind
    fun ecef => ecefToLla ⟨some ecef.x, some ecef.y, some ecef.z⟩

/-- Round trip `ecefToBody ∘ bodyToEcef` for a fixed aircraft position
and attitude, feeding the ECEF result back into `ecefToBody`. -/
def bodyRoundTrip (pos : Lla) (att : Attitude) (body : Vec3) : Except JsError Vec3 :=
  (bodyToEcef ⟨some pos, some att, some body⟩).bind
    fun ecef => ecefToBody ⟨some pos, some att, some ecef⟩

/-! ### occlusionChecker module -/

/-- `EARTH_RADIUS` of the occlusion checker (meters). -/
def EARTH_RADIUS : ℝ := 6378137.0

/-! ### Quadratic coefficients of the occlusion test

The coefficients `A = |d|²`, `B = 2·(p1·d)`, `C = |p1|² − R²` of the
segment–sphere quadratic, written once and referenced both by the claims
and (syntactically identically) by the source's `checkOcclusion` body
above. -/

/-- `A = |d|²` with `d = target - observer`. -/
def occA (observer target : Vec3) : ℝ :=
  (target.x - observer.x) * (target.x - observer.x) +
    (target.y - observer.y) * (target.y - observer.y) +
    (target.z - observer.z) * (target.z - observer.z)

/-- `B = 2·(p1·d)` with `p1 = observer`, `d = target - observer`. -/
def occB (observer target : Vec3) : ℝ :=
  2 * (observer.x * (target.x - observer.x) + observer.y * (target.y - observer.y) +
    observer.z * (target.z - observer.z))

/-- `C = |p1|² − R²` with `p1 = observer`, `R` the Earth radius. -/
def occC (observer : Vec3) : ℝ :=
  observer.x * observer.x + observer.y * observer.y + observer.z * observer.z -
    EARTH_RADIUS * EARTH_RADIUS



/-- `checkOcclusion` of the occlusion checker, with both required
parameters present (the missing-parameter throw is not modelled because
the positions are passed directly).  Mirrors the source: an early
`false` when the two positions coincide componentwise, then the
quadratic `A·t² + B·t + C` for the segment–sphere intersection, `false`
when the discriminant is negative, otherwise a root-in-`[0,1]` test. -/
noncomputable def checkOcclusion (aircraftPosition satellitePosition : Vec3) : Bool :=
  if aircraftPosition.x = satellitePosition.x ∧
     aircraftPosition.y = satellitePosition.y ∧
     aircraftPosition.z = satellitePosition.z then
    false
  else
    let A := occA aircraftPosition satellitePosition
    let B := occB aircraftPosition satellitePosition
    let C := occC aircraftPosition
    let discriminant := B * B - 4 * A * C
    if discriminant < 0 then
      false
    else
      let sqrtDiscriminant := Real.sqrt discriminant
      let t1 := (-B + sqrtDiscriminant) / (2 * A)
      let t2 := (-B - sqrtDiscriminant) / (2 * A)
      if (0 ≤ t1 ∧ t1 ≤ 1) ∨ (0 ≤ t2 ∧ t2 ≤ 1) then true else false

/-! ### signalStrengthCalculator module -/

/-- `SPEED_OF_LIGHT` (m/s). -/
def SPEED_OF_LIGHT : ℝ := 299792458.0

/-- `FOUR_PI_OVER_C = (4 * Math.PI) / SPEED_OF_LIGHT`. -/
noncomputable def FOUR_PI_OVER_C : ℝ := 4 * Real.pi / SPEED_OF_LIGHT

/-- `calculateDistance` of the signal-strength module: Euclidean
distance between two ECEF points. -/
noncomputable def calculateDistance (pos1 pos2 : Vec3) : ℝ :=
  let dx := pos1.x - pos2.x
  let dy := pos1.y - pos2.y
  let dz := pos1.z - pos2.z
  Real.sqrt (dx * dx + dy * dy + dz * dz)

/-- Parameter object of `calculateSignalStrength`; the source treats the
first four fields as required (`== null` / falsiness checks) and
defaults the two antenna gains to `0`. -/
structure SignalParams where
  aircraftPosition : Option Vec3
  satellitePosition : Option Vec3
  transmitterPower : Option ℝ
  frequency : Option ℝ
  satelliteAntennaGain : Option ℝ
  aircraftAntennaGain : Option ℝ

/-- `calculateSignalStrength` of the signal-strength module.  The
JavaScript return value is a number that can be `-Infinity`, modelled as
`EReal` with `⊥` for the negative-infinity sentinel.  Mirrors the
source: parameter check, distance, the `distance <= 0 || frequency <= 0`
sentinel branch, free-space path loss via `Math.log10`, gains added,
`+ 30` for dBW → dBm. -/
noncomputable def calculateSignalStrength (params : SignalParams) : Except JsError EReal :=
  match params.aircraftPosition, params.satellitePosition,
        params.transmitterPower, params.frequency with
  | some aircraftPosition, some satellitePosition, some transmitterPower, some frequency =>
    let satelliteAntennaGain := params.satelliteAntennaGain.getD 0
    let aircraftAntennaGain := params.aircraftAntennaGain.getD 0
    let distance := calculateDistance aircraftPosition satellitePosition
    if distance ≤ 0 ∨ frequency ≤ 0 then
      .ok ⊥
    else
      let fslp := 20 * Real.logb 10 distance + 20 * Real.logb 10 frequency +
        20 * Real.logb 10 FOUR_PI_OVER_C
      let receivedPowerDbw := transmitterPower + satelliteAntennaGain +
        aircraftAntennaGain - fslp
      .ok ((receivedPowerDbw + 30 : ℝ) : EReal)
  | _, _, _, _ => .error .missingParams

/-- Free-space path loss exactly as the specification states it:
`FSPL = 20·log10(distance) + 20·log10(frequencyHz) + 20·log10(4π/c)`
with `c = 299792458.0 m/s`.  Stated from the claim's words, to be
compared with the embedded `calculateSignalStrength`. -/
noncomputable def fsplSpec (distance frequencyHz : ℝ) : ℝ :=
  20 * Real.logb 10 distance + 20 * Real.logb 10 frequencyHz +
    20 * Real.logb 10 (4 * Real.pi / 299792458.0)

/-- Euclidean distance between two ECEF points as the claim states it,
to be compared with the embedded `calculateDistance`. -/
noncomputable def euclidDistSpec (p q : Vec3) : ℝ :=
  Real.sqrt ((p.x - q.x) ^ 2 + (p.y - q.y) ^ 2 + (p.z - q.z) ^ 2)

/-! ### satelliteCalculator module -/

/-- `EARTH_ROTATION_RATE` (rad/s). -/
def earthRotationRate : ℝ := 7.2921151467e-5

/-- `EARTH_GRAVITATIONAL_CONSTANT` (m³/s²). -/
def EARTH_GRAVITATIONAL_CONSTANT : ℝ := 3.986004418e14

/-- `GPS_SECONDS_PER_WEEK`. -/
def GPS_SECONDS_PER_WEEK : ℚ := 604800

/-- `UNIX_TO_GPS_EPOCH_SECONDS` (no leap seconds). -/
def UNIX_TO_GPS_EPOCH_SECONDS : ℚ := 315964800

/-- Truncation toward zero on `ℚ`, as JavaScript division underlying the
`%` operator truncates. -/
def jsTrunc (q : ℚ) : ℤ :=
  if 0 ≤ q then ⌊q⌋ else -⌊-q⌋

/-- The JavaScript remainder operator `a % b` on finite numbers:
`a - b * trunc(a / b)` (the sign follows the dividend). -/
def jsMod (a b : ℚ) : ℚ :=
  a - b * (jsTrunc (a / b) : ℚ)

/-- Truncation toward zero on `ℝ`, for the JavaScript `%` applied to the
mean anomaly. -/
noncomputable def jsTruncR (x : ℝ) : ℝ :=
  if 0 ≤ x then (⌊x⌋ : ℝ) else -(⌊-x⌋ : ℝ)

/-- The JavaScript remainder operator on `ℝ`-modelled numbers. -/
noncomputable def jsModR (a b : ℝ) : ℝ :=
  a - b * jsTruncR (a / b)

/-- `Math.atan2(y, x)`, modelled as the argument of the complex number
`x + y·i` (both agree on the range `(-π, π]` and at the origin). -/
noncomputable def atan2 (y x : ℝ) : ℝ :=
  Complex.arg ⟨x, y⟩

/-- The broadcast orbital parameters the propagation reads from
`satelliteData.orbitalParameters`.  `toe` is kept rational because it
enters the decidable time arithmetic; the remaining parameters feed only
the real-valued computation. -/
structure OrbitalParams where
  toe : ℚ
  m0 : ℝ
  e : ℝ
  rootA : ℝ
  deltaN : ℝ
  i0 : ℝ
  idot : ℝ
  omega0 : ℝ
  omegadot : ℝ
  omega : ℝ
  cuc : ℝ
  cus : ℝ
  crc : ℝ
  crs : ℝ
  cic : ℝ
  cis : ℝ

/-- `satelliteData.timeParameters`: the optional validity window, whose
two bounds are `Date`s read via `getTime()` (milliseconds). -/
structure TimeParameters where
  validFrom : Option ℚ
  validTo : Option ℚ

/-- One entry of `rinexData.satellites`. -/
structure SatelliteData where
  id : String
  orbitalParameters : Option OrbitalParams
  timeParameters : Option TimeParameters

/-- The `rinexData` object; the source guards `rinexData.satellites &&`
before searching, so the list itself is optional. -/
structure RinexData where
  satellites : Option (List SatelliteData)

/-- The lookup `rinexData.satellites && rinexData.satellites.find(sat =>
sat.id === satelliteId)`. -/
def findSatellite (rinexData : RinexData) (satelliteId : String) : Option SatelliteData :=
  rinexData.satellites.bind (List.find? fun sat => sat.id == satelliteId)

/-- Steps 1 of the propagation: the time difference `tk` from the
timestamp (milliseconds) and `toe`, including the UTC→GPS offset, the
truncated `%` for seconds-of-week, and the half-week rollover
correction.  All of it is exact rational arithmetic in the source's
guard structure. -/
def gpsTk (toe : ℚ) (timestamp : ℚ) : ℚ :=
  let utcTimestampSeconds := timestamp / 1000
  let gpsTotalSeconds := utcTimestampSeconds - UNIX_TO_GPS_EPOCH_SECONDS
  let t_sow := jsMod gpsTotalSeconds GPS_SECONDS_PER_WEEK
  let tk := t_sow - toe
  let halfWeek := GPS_SECONDS_PER_WEEK / 2
  if tk > halfWeek then tk - GPS_SECONDS_PER_WEEK
  else if tk < -halfWeek then tk + GPS_SECONDS_PER_WEEK
  else tk

/-- One Newton-Raphson step of the Kepler solver:
`E - (E - e·sin(E) - M) / (1 - e·cos(E))`. -/
noncomputable def keplerStep (e M Ek : ℝ) : ℝ :=
  Ek - (Ek - e * Real.sin Ek - M) / (1 - e * Real.cos Ek)

/-- The source's `do … while (Math.abs(Ek - Ek_prev) > 1e-12 &&
iterations < 100)` loop, with the remaining iteration budget as fuel:
each call performs one step, stops early once the step size is within
tolerance, and when the fuel runs out returns the current iterate
unconditionally — the truncation is silent. -/
noncomputable def keplerLoop (e M : ℝ) : ℕ → ℝ → ℝ
  | 0, Ek => Ek
  | fuel + 1, Ek =>
    let Ek' := keplerStep e M Ek
    if |Ek' - Ek| ≤ 1e-12 then Ek' else keplerLoop e M fuel Ek'

/-- The full Kepler solve: initial guess `M`, at most 100 iterations. -/
noncomputable def solveKepler (e M : ℝ) : ℝ :=
  keplerLoop e M 100 M

/-- Steps 2–10 of `calculateSatellitePosition`: the orbital computation
performed after all guards have passed, translated clause by clause from
the source (mean motion, normalized mean anomaly, Kepler solve, true
anomaly, harmonic corrections, in-plane coordinates, corrected right
ascension, final ECEF coordinates). -/
noncomputable def keplerPosition (orbitalParams : OrbitalParams) (timestamp : ℚ) : Vec3 :=
  let tk : ℝ := (gpsTk orbitalParams.toe timestamp : ℚ)
  let n0 := Real.sqrt (EARTH_GRAVITATIONAL_CONSTANT / orbitalParams.rootA ^ 6)
  let n := n0 + orbitalParams.deltaN
  let Mk := orbitalParams.m0 + n * tk
  let twoPi := 2 * Real.pi
  let normalizedMk := jsModR (jsModR Mk twoPi + twoPi) twoPi
  let Ek := solveKepler orbitalParams.e normalizedMk
  let vk := atan2 (Real.sqrt (1 - orbitalParams.e ^ 2) * Real.sin Ek)
    (Real.cos Ek - orbitalParams.e)
  let phik := vk + orbitalParams.omega
  let deltaUk := orbitalParams.cus * Real.sin (2 * phik) +
    orbitalParams.cuc * Real.cos (2 * phik)
  let deltaRk := orbitalParams.crs * Real.sin (2 * phik) +
    orbitalParams.crc * Real.cos (2 * phik)
  let deltaIk := orbitalParams.cis * Real.sin (2 * phik) +
    orbitalParams.cic * Real.cos (2 * phik)
  let uk := phik + deltaUk
  let rk := orbitalParams.rootA ^ 2 * (1 - orbitalParams.e * Real.cos Ek) + deltaRk
  let ik := orbitalParams.i0 + deltaIk + orbitalParams.idot * tk
  let xk' := rk * Real.cos uk
  let yk' := rk * Real.sin uk
  let Omegak := orbitalParams.omega0 +
    (orbitalParams.omegadot - earthRotationRate) * tk -
    earthRotationRate * (orbitalParams.toe : ℝ)
  let xk := xk' * Real.cos Omegak - yk' * Real.cos ik * Real.sin Omegak
  let yk := xk' * Real.sin Omegak + yk' * Real.cos ik * Real.cos Omegak
  let zk := yk' * Real.sin ik
  ⟨xk, yk, zk⟩

/-- `calculateSatellitePosition` of the satelliteCalculator module
(the version with the implemented orbital computation).  Timestamps are
milliseconds since the Unix epoch (`Date.getTime()`).  The empty string
is the one falsy satellite id, mirroring `!params.satelliteId`; the
remaining required parameters are passed directly.  The guard structure
mirrors the source exactly: satellite lookup, orbital-parameter
presence, then the validity-window check only when `timeParameters`,
`validFrom` and `validTo` are all present. -/
noncomputable def calculateSatellitePosition (rinexData : RinexData)
    (satelliteId : String) (timestamp : ℚ) : Except JsError Vec3 :=
  if satelliteId = "" then .error .missingParams
  else
    match findSatellite rinexData satelliteId with
    | none => .error (.satelliteNotFound satelliteId)
    | some satelliteData =>
      match satelliteData.orbitalParameters with
      | none => .error (.missingOrbitalParams satelliteId)
      | some orbitalParams =>
        match satelliteData.timeParameters with
        | some timeParams =>
          match timeParams.validFrom, timeParams.validTo with
          | some validFrom, some validTo =>
            if timestamp < validFrom ∨ timestamp > validTo then
              .error .outOfValidityRange
            else
              .ok (keplerPosition orbitalParams timestamp)
          | _, _ => .ok (keplerPosition orbitalParams timestamp)
        | none => .ok (keplerPosition orbitalParams timestamp)

/-- The validity guard of the source, as a predicate on one satellite
entry and a timestamp: whenever a complete window is present, the
timestamp lies inside it (inclusive).  Entries without a complete window
satisfy it vacuously. -/
def validityPasses (sat : SatelliteData) (t : ℚ) : Prop :=
  ∀ tp vf vt, sat.timeParameters = some tp → tp.validFrom = some vf →
    tp.validTo = some vt → vf ≤ t ∧ t ≤ vt

/-! ### Concrete ephemeris data for witnesses -/

/-- An all-zero orbital parameter record, used as concrete witness
input. -/
def op0 : OrbitalParams :=
  ⟨0, 0, 0, 0, 0, 0, 0, 0, 0, 0, 0, 0, 0, 0, 0, 0⟩

/-- Witness entry with orbital parameters and no validity window. -/
def satNoWindow : SatelliteData := ⟨"B01", some op0, none⟩

/-- Witness ephemeris containing only `satNoWindow`. -/
def rinexNoWindow : RinexData := ⟨some [satNoWindow]⟩

/-- Witness entry with orbital parameters and the validity window
`[0 ms, 3600000 ms]`. -/
def satWindowed : SatelliteData := ⟨"B01", some op0, some ⟨some 0, some 3600000⟩⟩

/-- Witness ephemeris containing only `satWindowed`. -/
def rinexWindowed : RinexData := ⟨some [satWindowed]⟩

/-- Witness entry whose `timeParameters` lacks the `validTo` bound. -/
def satHalfWindow : SatelliteData := ⟨"B01", some op0, some ⟨some 0, none⟩⟩

/-- Witness ephemeris containing only `satHalfWindow`. -/
def rinexHalfWindow : RinexData := ⟨some [satHalfWindow]⟩

/-- Witness entry that exists but lacks its orbital parameters. -/
def satNoParams : SatelliteData := ⟨"B02", none, none⟩

/-- Witness ephemeris containing only `satNoParams`. -/
def rinexNoParams : RinexData := ⟨some [satNoParams]⟩

/-- Witness ephemeris with an empty satellite list. -/
def rinexEmpty : RinexData := ⟨some []⟩


/-! ## Theorems -/

/-- Claim C1 (status: code_bug).  The round trip
`ecefToLla(llaToEcef(p))` does not return `p`: both conversions are
hardcoded stubs, so the composition maps the geodetic origin
`(0°, 0°, 0 m)` to `(116.3974°, 39.9093°, 50 m)`, whose longitude alone
is off by far more than the claimed `1e-9` radians (and the altitude by
more than `1e-6` m). -/
theorem llaRoundTrip_fails_at_origin :
    llaRoundTrip ⟨0, 0, 0⟩ = .ok ⟨116.3974, 39.9093, 50.0⟩ ∧
    ¬ (|(116.3974 : ℝ) - 0| * (Real.pi / 180) ≤ 1e-9 ∧
       |(39.9093 : ℝ) - 0| * (Real.pi / 180) ≤ 1e-9 ∧
       |(50.0 : ℝ) - 0| ≤ 1e-6) := by
  refine ⟨rfl, ?_⟩
  rintro ⟨-, -, h3⟩
  rw [abs_of_nonneg (by norm_num)] at h3
  norm_num at h3

/-- Claim C8 (status: code_bug).  `ecefToBody` composed with
`bodyToEcef` does not recover the body coordinate: both conversions are
hardcoded stubs, so the round trip of the body coordinate `(0, 0, 0)`
(for any fixed aircraft position and attitude, here the zero ones)
returns `(10, 0, 0)`, 10 m away from the input. -/
theorem bodyRoundTrip_fails_at_origin :
    bodyRoundTrip ⟨0, 0, 0⟩ ⟨0, 0, 0⟩ ⟨0, 0, 0⟩ = .ok ⟨10.0, 0.0, 0.0⟩ ∧
    (⟨10.0, 0.0, 0.0⟩ : Vec3) ≠ ⟨0, 0, 0⟩ := by
  refine ⟨rfl, ?_⟩
  intro h
  have hx : (10.0 : ℝ) = 0 := congrArg Vec3.x h
  norm_num at hx

/-- Helper: `checkOcclusion` returns `true` exactly when the two
positions differ and the segment quadratic `A·t² + B·t + C` has a root
in `[0, 1]`. -/
theorem checkOcclusion_eq_true_iff (observer target : Vec3) :
    checkOcclusion observer target = true ↔
      observer ≠ target ∧
      ∃ t : ℝ, 0 ≤ t ∧ t ≤ 1 ∧
        occA observer target * t ^ 2 + occB observer target * t + occC observer = 0 := by
  rcases observer with ⟨ox, oy, oz⟩
  rcases target with ⟨tx, ty, tz⟩
  by_cases heq : ox = tx ∧ oy = ty ∧ oz = tz
  · obtain ⟨h1, h2, h3⟩ := heq
    subst h1; subst h2; subst h3
    simp [checkOcclusion]
  · have hne : (⟨ox, oy, oz⟩ : Vec3) ≠ ⟨tx, ty, tz⟩ := by
      intro h
      exact heq ⟨congrArg Vec3.x h, congrArg Vec3.y h, congrArg Vec3.z h⟩
    have hA : 0 < occA ⟨ox, oy, oz⟩ ⟨tx, ty, tz⟩ := by
      simp only [occA]
      rcases not_and_or.mp heq with h | h2
      · have hd : tx - ox ≠ 0 := fun hh => h (sub_eq_zero.mp hh).symm
        nlinarith [mul_self_pos.mpr hd, mul_self_nonneg (ty - oy), mul_self_nonneg (tz - oz)]
      · rcases not_and_or.mp h2 with h | h
        · have hd : ty - oy ≠ 0 := fun hh => h (sub_eq_zero.mp hh).symm
          nlinarith [mul_self_pos.mpr hd, mul_self_nonneg (tx - ox), mul_self_nonneg (tz - oz)]
        · have hd : tz - oz ≠ 0 := fun hh => h (sub_eq_zero.mp hh).symm
          nlinarith [mul_self_pos.mpr hd, mul_self_nonneg (tx - ox), mul_self_nonneg (ty - oy)]
    simp only [checkOcclusion]
    rw [if_neg heq]
    by_cases hdisc : occB ⟨ox, oy, oz⟩ ⟨tx, ty, tz⟩ * occB ⟨ox, oy, oz⟩ ⟨tx, ty, tz⟩ -
        4 * occA ⟨ox, oy, oz⟩ ⟨tx, ty, tz⟩ * occC ⟨ox, oy, oz⟩ < 0
    · rw [if_pos hdisc]
      simp only [Bool.false_eq_true, false_iff, not_and, not_exists]
      intro _
      intro t ht0
      intro ht1 hroot
      have hnz := quadratic_ne_zero_of_discrim_ne_sq
        (a := occA ⟨ox, oy, oz⟩ ⟨tx, ty, tz⟩) (b := occB ⟨ox, oy, oz⟩ ⟨tx, ty, tz⟩)
        (c := occC ⟨ox, oy, oz⟩) (fun s hs => by rw [discrim] at hs; nlinarith [sq_nonneg s]) t
      exact hnz (by rw [← hroot]; ring)
    · rw [if_neg hdisc]
      have h0 : 0 ≤ occB ⟨ox, oy, oz⟩ ⟨tx, ty, tz⟩ * occB ⟨ox, oy, oz⟩ ⟨tx, ty, tz⟩ -
          4 * occA ⟨ox, oy, oz⟩ ⟨tx, ty, tz⟩ * occC ⟨ox, oy, oz⟩ := not_lt.mp hdisc
      have hs : discrim (occA ⟨ox, oy, oz⟩ ⟨tx, ty, tz⟩) (occB ⟨ox, oy, oz⟩ ⟨tx, ty, tz⟩)
          (occC ⟨ox, oy, oz⟩) =
          Real.sqrt (occB ⟨ox, oy, oz⟩ ⟨tx, ty, tz⟩ * occB ⟨ox, oy, oz⟩ ⟨tx, ty, tz⟩ -
            4 * occA ⟨ox, oy, oz⟩ ⟨tx, ty, tz⟩ * occC ⟨ox, oy, oz⟩) *
          Real.sqrt (occB ⟨ox, oy, oz⟩ ⟨tx, ty, tz⟩ * occB ⟨ox, oy, oz⟩ ⟨tx, ty, tz⟩ -
            4 * occA ⟨ox, oy, oz⟩ ⟨tx, ty, tz⟩ * occC ⟨ox, oy, oz⟩) := by
        rw [Real.mul_self_sqrt h0, discrim]
        ring
      by_cases hP : (0 ≤ (-occB ⟨ox, oy, oz⟩ ⟨tx, ty, tz⟩ +
            Real.sqrt (occB ⟨ox, oy, oz⟩ ⟨tx, ty, tz⟩ * occB ⟨ox, oy, oz⟩ ⟨tx, ty, tz⟩ -
              4 * occA ⟨ox, oy, oz⟩ ⟨tx, ty, tz⟩ * occC ⟨ox, oy, oz⟩)) /
            (2 * occA ⟨ox, oy, oz⟩ ⟨tx, ty, tz⟩) ∧
          (-occB ⟨ox, oy, oz⟩ ⟨tx, ty, tz⟩ +
            Real.sqrt (occB ⟨ox, oy, oz⟩ ⟨tx, ty, tz⟩ * occB ⟨ox, oy, oz⟩ ⟨tx, ty, tz⟩ -
              4 * occA ⟨ox, oy, oz⟩ ⟨tx, ty, tz⟩ * occC ⟨ox, oy, oz⟩)) /
            (2 * occA ⟨ox, oy, oz⟩ ⟨tx, ty, tz⟩) ≤ 1) ∨
          (0 ≤ (-occB ⟨ox, oy, oz⟩ ⟨tx, ty, tz⟩ -
            Real.sqrt (occB ⟨ox, oy, oz⟩ ⟨tx, ty, tz⟩ * occB ⟨ox, oy, oz⟩ ⟨tx, ty, tz⟩ -
              4 * occA ⟨ox, oy, oz⟩ ⟨tx, ty, tz⟩ * occC ⟨ox, oy, oz⟩)) /
            (2 * occA ⟨ox, oy, oz⟩ ⟨tx, ty, tz⟩) ∧
          (-occB ⟨ox, oy, oz⟩ ⟨tx, ty, tz⟩ -
            Real.sqrt (occB ⟨ox, oy, oz⟩ ⟨tx, ty, tz⟩ * occB ⟨ox, oy, oz⟩ ⟨tx, ty, tz⟩ -
              4 * occA ⟨ox, oy, oz⟩ ⟨tx, ty, tz⟩ * occC ⟨ox, oy, oz⟩)) /
            (2 * occA ⟨ox, oy, oz⟩ ⟨tx, ty, tz⟩) ≤ 1)
      · rw [if_pos hP]
        refine iff_of_true rfl ⟨hne, ?_⟩
        rcases hP with ⟨hp0, hp1⟩ | ⟨hp0, hp1⟩
        · refine ⟨_, hp0, hp1, ?_⟩
          have hroot := (quadratic_eq_zero_iff hA.ne' hs _).mpr (Or.inl rfl)
          linear_combination hroot
        · refine ⟨_, hp0, hp1, ?_⟩
          have hroot := (quadratic_eq_zero_iff hA.ne' hs _).mpr (Or.inr rfl)
          linear_combination hroot
      · rw [if_neg hP]
        simp only [Bool.false_eq_true, false_iff, not_and, not_exists]
        intro _
        intro t ht0
        intro ht1 hroot
        have := (quadratic_eq_zero_iff hA.ne' hs t).mp (by rw [← hroot]; ring)
        rcases this with h | h
        · exact hP (Or.inl ⟨h ▸ ht0, h ▸ ht1⟩)
        · exact hP (Or.inr ⟨h ▸ ht0, h ▸ ht1⟩)

/-- Claim C3 (status: confirmed).  `checkOcclusion(observer, target)`
returns `true` exactly when observer and target differ and the quadratic
`A·t² + B·t + C = 0` (with `A = |d|²`, `B = 2·(p1·d)`,
`C = |p1|² − R²`, `R = 6378137.0`) has a root `t ∈ [0, 1]`; in
particular `checkOcclusion(p, p)` is `false` for every `p`, and for
observer `(6378137, 0, 10000)` with target `(-6378137, 0, -10000)` it
returns `true`. -/
theorem checkOcclusion_claim_c3 :
    (∀ observer target : Vec3,
      (checkOcclusion observer target = true ↔
        observer ≠ target ∧
        ∃ t : ℝ, 0 ≤ t ∧ t ≤ 1 ∧
          occA observer target * t ^ 2 + occB observer target * t + occC observer = 0)) ∧
    (∀ p : Vec3, checkOcclusion p p = false) ∧
    checkOcclusion ⟨6378137, 0, 10000⟩ ⟨-6378137, 0, -10000⟩ = true := by
  refine ⟨checkOcclusion_eq_true_iff, fun p => by simp [checkOcclusion], ?_⟩
  rw [checkOcclusion_eq_true_iff]
  have hA : occA ⟨6378137, 0, 10000⟩ ⟨-6378137, 0, -10000⟩ = 162722926363076 := by
    simp only [occA]
    norm_num
  have hB : occB ⟨6378137, 0, 10000⟩ ⟨-6378137, 0, -10000⟩ = -162722926363076 := by
    simp only [occB]
    norm_num
  have hC : occC ⟨6378137, 0, 10000⟩ = 100000000 := by
    simp only [occC, EARTH_RADIUS]
    norm_num
  constructor
  · intro h
    have := congrArg Vec3.x h
    simp only at this
    norm_num at this
  · have hD0 : (0 : ℝ) ≤ (-162722926363076 : ℝ) ^ 2 - 4 * 162722926363076 * 100000000 := by
      norm_num
    have hs : discrim (162722926363076 : ℝ) (-162722926363076) 100000000 =
        Real.sqrt ((-162722926363076 : ℝ) ^ 2 - 4 * 162722926363076 * 100000000) *
        Real.sqrt ((-162722926363076 : ℝ) ^ 2 - 4 * 162722926363076 * 100000000) := by
      rw [Real.mul_self_sqrt hD0, discrim]
    set s : ℝ := Real.sqrt ((-162722926363076 : ℝ) ^ 2 - 4 * 162722926363076 * 100000000)
      with hsdef
    have hsle : s ≤ 162722926363076 := by
      have h1 : s ≤ Real.sqrt ((162722926363076 : ℝ) * 162722926363076) := by
        rw [hsdef]
        apply Real.sqrt_le_sqrt
        norm_num
      rwa [Real.sqrt_mul_self (by norm_num)] at h1
    have hsnn : 0 ≤ s := Real.sqrt_nonneg _
    refine ⟨(162722926363076 - s) / (2 * 162722926363076), ?_, ?_, ?_⟩
    · apply div_nonneg (by linarith) (by norm_num)
    · rw [div_le_one (by norm_num)]
      linarith
    · rw [hA, hB, hC]
      have hroot := (quadratic_eq_zero_iff
        (show (162722926363076 : ℝ) ≠ 0 by norm_num) hs
        ((162722926363076 - s) / (2 * 162722926363076))).mpr
        (Or.inr (by rw [hsdef]; norm_num))
      linear_combination hroot

/-- Helper: the source's `calculateDistance` is the Euclidean distance
of the claim. -/
theorem calculateDistance_eq_euclid (p q : Vec3) :
    calculateDistance p q = euclidDistSpec p q := by
  simp only [calculateDistance, euclidDistSpec]
  ring_nf

/-- Claim C6 (status: confirmed).  With all required parameters present,
positive distance and positive frequency, `calculateSignalStrength`
returns exactly `transmitPower + satGain + rxGain − FSPL + 30` with
`FSPL = 20·log10(d) + 20·log10(f) + 20·log10(4π/c)`,
`c = 299792458.0 m/s`, `d` the Euclidean distance. -/
theorem calculateSignalStrength_formula (params : SignalParams)
    (ap sp : Vec3) (tp f : ℝ)
    (hap : params.aircraftPosition = some ap)
    (hsp : params.satellitePosition = some sp)
    (htp : params.transmitterPower = some tp)
    (hf : params.frequency = some f)
    (hd : 0 < euclidDistSpec ap sp) (hf0 : 0 < f) :
    calculateSignalStrength params =
      .ok ((tp + params.satelliteAntennaGain.getD 0 + params.aircraftAntennaGain.getD 0 -
        fsplSpec (euclidDistSpec ap sp) f + 30 : ℝ) : EReal) := by
  have hdist : calculateDistance ap sp = euclidDistSpec ap sp :=
    calculateDistance_eq_euclid ap sp
  simp only [calculateSignalStrength, hap, hsp, htp, hf]
  rw [if_neg (by
    rw [hdist]
    push_neg
    exact ⟨hd, hf0⟩)]
  rw [hdist]
  simp only [fsplSpec, FOUR_PI_OVER_C, SPEED_OF_LIGHT]

/-- Witness for C6: aircraft at the origin, satellite at `(3, 4, 0)`
(distance 5), frequency 2. -/
theorem calculateSignalStrength_formula_witness :
    0 < euclidDistSpec ⟨0, 0, 0⟩ ⟨3, 4, 0⟩ ∧ (0 : ℝ) < 2 ∧
    calculateSignalStrength ⟨some ⟨0, 0, 0⟩, some ⟨3, 4, 0⟩, some 1, some 2, none, none⟩ =
      .ok ((1 + 0 + 0 - fsplSpec (euclidDistSpec ⟨0, 0, 0⟩ ⟨3, 4, 0⟩) 2 + 30 : ℝ) : EReal) := by
  have hd : 0 < euclidDistSpec ⟨0, 0, 0⟩ ⟨3, 4, 0⟩ := by
    simp only [euclidDistSpec]
    rw [show ((0 : ℝ) - 3) ^ 2 + ((0 : ℝ) - 4) ^ 2 + ((0 : ℝ) - 0) ^ 2 = 25 by norm_num]
    exact Real.sqrt_pos.mpr (by norm_num)
  refine ⟨hd, by norm_num, ?_⟩
  have h := calculateSignalStrength_formula
    ⟨some ⟨0, 0, 0⟩, some ⟨3, 4, 0⟩, some 1, some 2, none, none⟩
    ⟨0, 0, 0⟩ ⟨3, 4, 0⟩ 1 2 rfl rfl rfl rfl hd (by norm_num)
  simpa using h

/-- Claim C7 (status: confirmed).  With the required parameters present,
`calculateSignalStrength` returns the negative-infinity sentinel (`⊥`,
the model of `-Infinity`) — and throws no error — whenever
`distance ≤ 0` or `frequency ≤ 0`; for every other present-parameter
input it returns a finite real value. -/
theorem calculateSignalStrength_sentinel (params : SignalParams)
    (ap sp : Vec3) (tp f : ℝ)
    (hap : params.aircraftPosition = some ap)
    (hsp : params.satellitePosition = some sp)
    (htp : params.transmitterPower = some tp)
    (hf : params.frequency = some f) :
    ((calculateDistance ap sp ≤ 0 ∨ f ≤ 0) →
      calculateSignalStrength params = .ok (⊥ : EReal)) ∧
    (¬ (calculateDistance ap sp ≤ 0 ∨ f ≤ 0) →
      ∃ r : ℝ, calculateSignalStrength params = .ok ((r : ℝ) : EReal)) := by
  constructor
  · intro hdeg
    simp only [calculateSignalStrength, hap, hsp, htp, hf]
    rw [if_pos hdeg]
  · intro hok
    refine ⟨tp + params.satelliteAntennaGain.getD 0 + params.aircraftAntennaGain.getD 0 -
      (20 * Real.logb 10 (calculateDistance ap sp) + 20 * Real.logb 10 f +
        20 * Real.logb 10 FOUR_PI_OVER_C) + 30, ?_⟩
    simp only [calculateSignalStrength, hap, hsp, htp, hf]
    rw [if_neg hok]

/-- Witness for C7: both branches exercised — coincident positions
(distance 0) give the `⊥` sentinel, distinct positions with positive
frequency give a finite value. -/
theorem calculateSignalStrength_sentinel_witness :
    (calculateDistance ⟨1, 2, 3⟩ ⟨1, 2, 3⟩ ≤ 0 ∨ (7 : ℝ) ≤ 0) ∧
    calculateSignalStrength ⟨some ⟨1, 2, 3⟩, some ⟨1, 2, 3⟩, some 5, some 7, none, none⟩ =
      .ok (⊥ : EReal) ∧
    ¬ (calculateDistance ⟨0, 0, 0⟩ ⟨3, 4, 0⟩ ≤ 0 ∨ (7 : ℝ) ≤ 0) ∧
    (∃ r : ℝ,
      calculateSignalStrength ⟨some ⟨0, 0, 0⟩, some ⟨3, 4, 0⟩, some 5, some 7, none, none⟩ =
        .ok ((r : ℝ) : EReal)) := by
  have hzero : calculateDistance ⟨1, 2, 3⟩ ⟨1, 2, 3⟩ ≤ 0 := by
    simp [calculateDistance]
  have hpos : 0 < calculateDistance ⟨0, 0, 0⟩ ⟨3, 4, 0⟩ := by
    rw [calculateDistance_eq_euclid]
    simp only [euclidDistSpec]
    rw [show ((0 : ℝ) - 3) ^ 2 + ((0 : ℝ) - 4) ^ 2 + ((0 : ℝ) - 0) ^ 2 = 25 by norm_num]
    exact Real.sqrt_pos.mpr (by norm_num)
  have hok : ¬ (calculateDistance ⟨0, 0, 0⟩ ⟨3, 4, 0⟩ ≤ 0 ∨ (7 : ℝ) ≤ 0) := by
    push_neg
    exact ⟨hpos, by norm_num⟩
  refine ⟨Or.inl hzero, ?_, hok, ?_⟩
  · exact (calculateSignalStrength_sentinel
      ⟨some ⟨1, 2, 3⟩, some ⟨1, 2, 3⟩, some 5, some 7, none, none⟩
      ⟨1, 2, 3⟩ ⟨1, 2, 3⟩ 5 7 rfl rfl rfl rfl).1 (Or.inl hzero)
  · exact (calculateSignalStrength_sentinel
      ⟨some ⟨0, 0, 0⟩, some ⟨3, 4, 0⟩, some 5, some 7, none, none⟩
      ⟨0, 0, 0⟩ ⟨3, 4, 0⟩ 5 7 rfl rfl rfl rfl).2 hok

/-- Claim C2 (status: code_bug; supporting theorem).  Past the data and
validity guards, `calculateSatellitePosition` always returns a position
— for every orbital parameter set, including those for which the
Newton-Raphson loop in `solveKepler` exhausts its 100-iteration cap
without meeting the `1e-12` tolerance.  The truncated iterate flows
silently into the returned position; no non-convergence error path
exists anywhere in the function. -/
theorem calcSat_never_nonconvergence_error (d : RinexData) (id : String) (t : ℚ)
    (sat : SatelliteData) (op : OrbitalParams)
    (hid : id ≠ "") (hfind : findSatellite d id = some sat)
    (hop : sat.orbitalParameters = some op) (hval : validityPasses sat t) :
    calculateSatellitePosition d id t = .ok (keplerPosition op t) := by
  rcases htp : sat.timeParameters with - | tp
  · simp only [calculateSatellitePosition, hid, if_false, hfind, hop, htp]
  · rcases hvf : tp.validFrom with - | vf
    · simp only [calculateSatellitePosition, hid, if_false, hfind, hop, htp, hvf]
    · rcases hvt : tp.validTo with - | vt
      · simp only [calculateSatellitePosition, hid, if_false, hfind, hop, htp, hvf, hvt]
      · obtain ⟨h1, h2⟩ := hval tp vf vt htp hvf hvt
        simp only [calculateSatellitePosition, hid, if_false, hfind, hop, htp, hvf, hvt]
        rw [if_neg (by push_neg; exact ⟨h1, h2⟩)]

/-- Witness for C2's supporting theorem: the no-window entry at
timestamp 0. -/
theorem calcSat_never_nonconvergence_error_witness :
    ("B01" : String) ≠ "" ∧ findSatellite rinexNoWindow "B01" = some satNoWindow ∧
    satNoWindow.orbitalParameters = some op0 ∧ validityPasses satNoWindow 0 ∧
    calculateSatellitePosition rinexNoWindow "B01" 0 = .ok (keplerPosition op0 0) := by
  have hval : validityPasses satNoWindow 0 := fun tp vf vt h _ _ => Option.noConfusion h
  exact ⟨by decide, rfl, rfl, hval,
    calcSat_never_nonconvergence_error rinexNoWindow "B01" 0 satNoWindow op0
      (by decide) rfl rfl hval⟩

/-- Claim C4 (status: confirmed).  For a satellite entry carrying a
complete validity window `[validFrom, validTo]` (milliseconds),
propagation at `t = validFrom` and at `t = validTo` succeeds with a
position — the bounds are inclusive — while propagation at
`validTo + 1000 ms` (one second later) fails with the
out-of-validity-range error and returns no position. -/
theorem calcSat_validity_boundary (d : RinexData) (id : String)
    (sat : SatelliteData) (op : OrbitalParams) (tp : TimeParameters) (vf vt : ℚ)
    (hid : id ≠ "") (hfind : findSatellite d id = some sat)
    (hop : sat.orbitalParameters = some op) (htp : sat.timeParameters = some tp)
    (hvf : tp.validFrom = some vf) (hvt : tp.validTo = some vt) (hwin : vf ≤ vt) :
    calculateSatellitePosition d id vf = .ok (keplerPosition op vf) ∧
    calculateSatellitePosition d id vt = .ok (keplerPosition op vt) ∧
    calculateSatellitePosition d id (vt + 1000) = .error .outOfValidityRange := by
  refine ⟨?_, ?_, ?_⟩
  · simp only [calculateSatellitePosition, hid, if_false, hfind, hop, htp, hvf, hvt]
    rw [if_neg (by push_neg; exact ⟨le_refl vf, hwin⟩)]
  · simp only [calculateSatellitePosition, hid, if_false, hfind, hop, htp, hvf, hvt]
    rw [if_neg (by push_neg; exact ⟨hwin, le_refl vt⟩)]
  · simp only [calculateSatellitePosition, hid, if_false, hfind, hop, htp, hvf, hvt]
    rw [if_pos (Or.inr (by linarith))]

/-- Witness for C4: the windowed entry with window `[0, 3600000]`. -/
theorem calcSat_validity_boundary_witness :
    ("B01" : String) ≠ "" ∧ findSatellite rinexWindowed "B01" = some satWindowed ∧
    satWindowed.orbitalParameters = some op0 ∧
    satWindowed.timeParameters = some ⟨some 0, some 3600000⟩ ∧
    (0 : ℚ) ≤ 3600000 ∧
    calculateSatellitePosition rinexWindowed "B01" 0 = .ok (keplerPosition op0 0) ∧
    calculateSatellitePosition rinexWindowed "B01" 3600000 =
      .ok (keplerPosition op0 3600000) ∧
    calculateSatellitePosition rinexWindowed "B01" (3600000 + 1000) =
      .error .outOfValidityRange := by
  obtain ⟨h1, h2, h3⟩ := calcSat_validity_boundary rinexWindowed "B01" satWindowed op0
    ⟨some 0, some 3600000⟩ 0 3600000 (by decide) rfl rfl rfl rfl rfl (by norm_num)
  exact ⟨by decide, rfl, rfl, rfl, by norm_num, h1, h2, h3⟩

/-- Claim C9 (status: confirmed).  `calculateSatellitePosition` fails
with the satellite-not-found error for every id with no entry in the
supplied ephemeris, and with the missing-orbital-parameters error for
every found entry lacking its orbital parameters; in both cases an
error, not a position, is returned. -/
theorem calcSat_missing_data_errors :
    (∀ (d : RinexData) (id : String) (t : ℚ), id ≠ "" →
      findSatellite d id = none →
      calculateSatellitePosition d id t = .error (.satelliteNotFound id)) ∧
    (∀ (d : RinexData) (id : String) (t : ℚ) (sat : SatelliteData), id ≠ "" →
      findSatellite d id = some sat → sat.orbitalParameters = none →
      calculateSatellitePosition d id t = .error (.missingOrbitalParams id)) := by
  constructor
  · intro d id t hid hfind
    simp only [calculateSatellitePosition, hid, if_false, hfind]
  · intro d id t sat hid hfind hop
    simp only [calculateSatellitePosition, hid, if_false, hfind, hop]

/-- Witness for C9: an unknown id over an empty satellite list, and an
entry that lacks orbital parameters. -/
theorem calcSat_missing_data_errors_witness :
    (("G99" : String) ≠ "" ∧ findSatellite rinexEmpty "G99" = none ∧
      calculateSatellitePosition rinexEmpty "G99" 0 =
        .error (.satelliteNotFound "G99")) ∧
    (("B02" : String) ≠ "" ∧ findSatellite rinexNoParams "B02" = some satNoParams ∧
      satNoParams.orbitalParameters = none ∧
      calculateSatellitePosition rinexNoParams "B02" 0 =
        .error (.missingOrbitalParams "B02")) := by
  refine ⟨⟨by decide, rfl, ?_⟩, ⟨by decide, rfl, rfl, ?_⟩⟩
  · exact calcSat_missing_data_errors.1 rinexEmpty "G99" 0 (by decide) rfl
  · exact calcSat_missing_data_errors.2 rinexNoParams "B02" 0 satNoParams (by decide) rfl rfl

/-- Claim C10 (status: confirmed).  When a satellite entry's
`timeParameters` is absent, or its `validFrom` or `validTo` bound is
absent, no validity check happens: `calculateSatellitePosition` returns
a propagated position for every timestamp and never raises the
out-of-range error. -/
theorem calcSat_no_window_no_check (d : RinexData) (id : String)
    (sat : SatelliteData) (op : OrbitalParams)
    (hid : id ≠ "") (hfind : findSatellite d id = some sat)
    (hop : sat.orbitalParameters = some op)
    (hwin : sat.timeParameters = none ∨
      ∃ tp, sat.timeParameters = some tp ∧ (tp.validFrom = none ∨ tp.validTo = none)) :
    ∀ t : ℚ, calculateSatellitePosition d id t = .ok (keplerPosition op t) := by
  intro t
  rcases hwin with htp | ⟨tp, htp, hb⟩
  · simp only [calculateSatellitePosition, hid, if_false, hfind, hop, htp]
  · rcases hb with hvf | hvt
    · simp only [calculateSatellitePosition, hid, if_false, hfind, hop, htp, hvf]
    · rcases hvf : tp.validFrom with - | vf
      · simp only [calculateSatellitePosition, hid, if_false, hfind, hop, htp, hvf]
      · simp only [calculateSatellitePosition, hid, if_false, hfind, hop, htp, hvf, hvt]

/-- Witness for C10: the entry whose window lacks `validTo`, evaluated
at an arbitrary timestamp far from its `validFrom`. -/
theorem calcSat_no_window_no_check_witness :
    ("B01" : String) ≠ "" ∧ findSatellite rinexHalfWindow "B01" = some satHalfWindow ∧
    satHalfWindow.orbitalParameters = some op0 ∧
    satHalfWindow.timeParameters = some ⟨some 0, none⟩ ∧
    calculateSatellitePosition rinexHalfWindow "B01" 999999999999 =
      .ok (keplerPosition op0 999999999999) := by
  refine ⟨by decide, rfl, rfl, rfl, ?_⟩
  exact calcSat_no_window_no_check rinexHalfWindow "B01" satHalfWindow op0
    (by decide) rfl rfl (Or.inr ⟨⟨some 0, none⟩, rfl, Or.inr rfl⟩) 999999999999

/-- Witness for C3: the theorem instantiated at the concrete pair of the
claim and at a coincident pair. -/
theorem checkOcclusion_claim_c3_witness :
    checkOcclusion ⟨6378137, 0, 10000⟩ ⟨-6378137, 0, -10000⟩ = true ∧
    checkOcclusion ⟨1, 2, 3⟩ ⟨1, 2, 3⟩ = false :=
  ⟨checkOcclusion_claim_c3.2.2, checkOcclusion_claim_c3.2.1 ⟨1, 2, 3⟩⟩
